import Mathlib

/-!
Verification of the dmitigr/genicam header `daheng_gx.hpp`, a header-only
C++ wrapper around the Daheng GX camera SDK (GxIAPI) and its image
processing companion (DxImageProc).  The vendor libraries are external
collaborators: every native function is modelled by an environment that
fixes its return status, its `GXGetLastError` report and the values it
stores through output parameters.  Each wrapper operation is embedded as a
pure function from that environment (and the wrapper object's state) to an
`Except` outcome, the successor state and the trace of native calls made.
-/

set_option maxHeartbeats 1000000

namespace DahengGx

/-- Status codes of the GX API are C `int32` values; `GX_STATUS_SUCCESS` is 0. -/
abbrev GX_STATUS := Int

def GX_STATUS_SUCCESS : GX_STATUS := 0

/-- Model of the C `double`: the wrapper only moves doubles between the
caller and the vendor, never computes with them, so an opaque integer
token stands for each double value. -/
abbrev CDouble := Int

/-- Exceptions the wrapper can throw: `gx::Exception` (carrying a status
code and a message), `std::invalid_argument`, `std::runtime_error`,
`std::bad_alloc` and `std::logic_error`. -/
inductive Exc where
  | gxException (code : Int) (what : String)
  | invalidArgument (what : String)
  | runtimeError (what : String)
  | badAlloc
  | logicError (what : String)
deriving DecidableEq, Repr

/-- State of the vendor's thread-local last-error slot as observed through
the two `GXGetLastError` calls made by `get_last_error`: `s1` and `s2` are
the return statuses of the size query and of the string query, `code` and
`text` are the error code and message the queries store. -/
structure LastError where
  s1 : GX_STATUS
  s2 : GX_STATUS
  code : GX_STATUS
  text : String
deriving DecidableEq, Repr

/-- Embedding of `gx::get_last_error`: queries for the message size, then
for the message; throws `Exception{s, "GXGetLastError()"}` if either query
itself fails, otherwise returns the reported code and message. -/
def get_last_error (e : LastError) : Except Exc (GX_STATUS × String) :=
  if e.s1 = GX_STATUS_SUCCESS then
    if e.s2 ≠ GX_STATUS_SUCCESS then
      Except.error (Exc.gxException e.s2 "GXGetLastError()")
    else
      Except.ok (e.code, e.text)
  else
    Except.error (Exc.gxException e.s1 "GXGetLastError()")

/-- Embedding of `gx::throw_if_last_error`: throws `Exception{code, str}`
exactly when the reported code differs from `GX_STATUS_SUCCESS`. -/
def throw_if_last_error (e : LastError) : Except Exc Unit :=
  match get_last_error e with
  | Except.error ex => Except.error ex
  | Except.ok (code, str) =>
    if code ≠ GX_STATUS_SUCCESS then Except.error (Exc.gxException code str)
    else Except.ok ()

/-- Embedding of the template `gx::call`: the native function has already
produced `result` and left the last-error slot in state `e`; the wrapper
then runs `throw_if_last_error` and passes `result` back unchanged. -/
def call {α : Type} (e : LastError) (result : α) : Except Exc α :=
  match throw_if_last_error e with
  | Except.error ex => Except.error ex
  | Except.ok _ => Except.ok result

/-- A last-error state in which both queries succeed and the reported code
is `GX_STATUS_SUCCESS`. -/
def LastError.isOk (e : LastError) : Prop :=
  e.s1 = GX_STATUS_SUCCESS ∧ e.s2 = GX_STATUS_SUCCESS ∧ e.code = GX_STATUS_SUCCESS

instance (e : LastError) : Decidable e.isOk := by
  unfold LastError.isOk
  infer_instance

theorem call_of_isOk {α : Type} {e : LastError} (h : e.isOk) (r : α) :
    call e r = Except.ok r := by
  obtain ⟨h1, h2, h3⟩ := h
  simp [call, throw_if_last_error, get_last_error, h1, h2, h3]

/-- Claim C1: after the native function returns, `gx::call` queries
`GXGetLastError`; provided the queries themselves succeed, it throws an
`Exception` carrying the reported status code and message iff that code
differs from `GX_STATUS_SUCCESS`, and otherwise passes the native result
back unchanged. -/
theorem gx_call_spec {α : Type} (e : LastError) (r : α)
    (h1 : e.s1 = GX_STATUS_SUCCESS) (h2 : e.s2 = GX_STATUS_SUCCESS) :
    (call e r = Except.ok r ↔ e.code = GX_STATUS_SUCCESS) ∧
    (e.code ≠ GX_STATUS_SUCCESS →
      call e r = Except.error (Exc.gxException e.code e.text)) := by
  by_cases hc : e.code = GX_STATUS_SUCCESS <;>
    simp [call, throw_if_last_error, get_last_error, h1, h2, hc]

/-- Witness for C1 at a concrete environment and result. -/
theorem gx_call_spec_witness :
    (call ⟨0, 0, 0, ""⟩ (5 : Int) = Except.ok 5 ↔
      (⟨0, 0, 0, ""⟩ : LastError).code = GX_STATUS_SUCCESS) ∧
    ((⟨0, 0, 0, ""⟩ : LastError).code ≠ GX_STATUS_SUCCESS →
      call ⟨0, 0, 0, ""⟩ (5 : Int) =
        Except.error (Exc.gxException (⟨0, 0, 0, ""⟩ : LastError).code
          (⟨0, 0, 0, ""⟩ : LastError).text)) :=
  gx_call_spec ⟨0, 0, 0, ""⟩ 5 rfl rfl

/-- Outcome of one native GX call site: the status the native function
returns and the last-error state it leaves behind. -/
structure VRes where
  ret : GX_STATUS
  last : LastError
deriving DecidableEq, Repr

/-- Running the `gx::call` wrapper on one native call site. -/
def gxcall (v : VRes) : Except Exc GX_STATUS :=
  call v.last v.ret

/-- Modelled from the vendor header GxIAPI.h (not part of this repository):
feature and command identifiers are opaque integer constants; the wrapper
depends only on their distinctness, so representative values are chosen. -/
def GX_ENUM_PIXEL_FORMAT : Int := 1

def GX_ENUM_GAIN_SELECTOR : Int := 2

def GX_FLOAT_GAIN : Int := 3

def GX_INT_PAYLOAD_SIZE : Int := 4

def GX_COMMAND_DEVICE_RESET : Int := 5

/-- A `GX_DEV_HANDLE` is a raw pointer; `none` models the null handle that
a default-constructed or closed `Device` holds. -/
abbrev Handle := Option Nat

/-- Trace entry: one invocation of a native GxIAPI function, with the
arguments the wrapper passes to it. -/
inductive VCall where
  | gxStreamOff (h : Handle)
  | gxStreamOn (h : Handle)
  | gxUnregisterCaptureCallback (h : Handle)
  | gxRegisterCaptureCallback (h : Handle)
  | gxCloseDevice (h : Handle)
  | gxSendCommand (h : Handle) (cmd : Int)
  | gxSetEnum (h : Handle) (feature v : Int)
  | gxGetEnum (h : Handle) (feature : Int)
  | gxSetFloat (h : Handle) (feature : Int) (v : CDouble)
  | gxGetFloat (h : Handle) (feature : Int)
  | gxSetInt (h : Handle) (feature v : Int)
  | gxGetInt (h : Handle) (feature : Int)
  | gxGetImage (h : Handle) (timeout : Int)
  | gxInitLib
  | gxCloseLib
deriving DecidableEq, Repr

/-- Vendor environment for `Device` operations: for every native call site
the status it returns and the last-error state it leaves, plus the values
the native getters store through their output parameters. -/
structure DevEnv where
  streamOff : VRes
  unregisterCb : VRes
  closeDevice : VRes
  sendCommand : VRes
  setEnum : VRes
  getEnum : VRes
  setFloat : VRes
  getFloat : VRes
  setInt : VRes
  getInt : VRes
  getImage : VRes
  enumOut : Int → Int
  floatOut : Int → CDouble
  intOut : Int → Int

/-- Embedding of `Device::operator bool`: `true` iff the object keeps a
non-null handle. -/
def Device.toBool (h : Handle) : Bool :=
  h.isSome

/-- The three-call vendor close sequence `GXStreamOff`,
`GXUnregisterCaptureCallback`, `GXCloseDevice` on handle `h`. -/
def closeSeq (h : Handle) : List VCall :=
  [VCall.gxStreamOff h, VCall.gxUnregisterCaptureCallback h, VCall.gxCloseDevice h]

/-- Embedding of `Device::close`: three `gx::call`-wrapped vendor calls,
then the handle is nulled; an exception aborts the sequence and leaves the
handle unchanged. -/
def Device.close (e : DevEnv) (h : Handle) :
    Except Exc Unit × Handle × List VCall :=
  match gxcall e.streamOff with
  | Except.error ex => (Except.error ex, h, [VCall.gxStreamOff h])
  | Except.ok _ =>
    match gxcall e.unregisterCb with
    | Except.error ex =>
      (Except.error ex, h, [VCall.gxStreamOff h, VCall.gxUnregisterCaptureCallback h])
    | Except.ok _ =>
      match gxcall e.closeDevice with
      | Except.error ex => (Except.error ex, h, closeSeq h)
      | Except.ok _ => (Except.ok (), none, closeSeq h)

/-- Embedding of `Device::close_nothrow`: on a non-null handle the three
vendor calls are made unconditionally, their raw statuses are combined
with bitwise or, the handle is nulled and success is whether the combined
status is `GX_STATUS_SUCCESS`; on a null handle nothing is called and the
result is `true`. -/
def Device.close_nothrow (e : DevEnv) (h : Handle) :
    Bool × Handle × List VCall :=
  match h with
  | some _ =>
    let s := (e.streamOff.ret.lor e.unregisterCb.ret).lor e.closeDevice.ret
    (s == GX_STATUS_SUCCESS, none, closeSeq h)
  | none => (true, none, [])

/-- Embedding of `Device::~Device`: delegates to `close_nothrow`. -/
def Device.dtor (e : DevEnv) (h : Handle) : Handle × List VCall :=
  let r := Device.close_nothrow e h
  (r.2.1, r.2.2)

/-- Embedding of `Device::reset`: sends `GX_COMMAND_DEVICE_RESET`, closes
the device and nulls the handle; an exception aborts the sequence. -/
def Device.reset (e : DevEnv) (h : Handle) :
    Except Exc Unit × Handle × List VCall :=
  match gxcall e.sendCommand with
  | Except.error ex =>
    (Except.error ex, h, [VCall.gxSendCommand h GX_COMMAND_DEVICE_RESET])
  | Except.ok _ =>
    match gxcall e.closeDevice with
    | Except.error ex =>
      (Except.error ex, h,
        [VCall.gxSendCommand h GX_COMMAND_DEVICE_RESET, VCall.gxCloseDevice h])
    | Except.ok _ =>
      (Except.ok (), none,
        [VCall.gxSendCommand h GX_COMMAND_DEVICE_RESET, VCall.gxCloseDevice h])

/-- Embedding of `Device::get_enum`: `GXGetEnum` stores the feature value
through its output parameter; `gx::call` either throws or lets the stored
value be returned. -/
def Device.get_enum (e : DevEnv) (h : Handle) (feature : Int) :
    Except Exc Int × List VCall :=
  match gxcall e.getEnum with
  | Except.error ex => (Except.error ex, [VCall.gxGetEnum h feature])
  | Except.ok _ => (Except.ok (e.enumOut feature), [VCall.gxGetEnum h feature])

/-- Embedding of `Device::set_enum`: passes the caller's value unmodified
to `GXSetEnum` for the given feature. -/
def Device.set_enum (e : DevEnv) (h : Handle) (feature v : Int) :
    Except Exc Unit × List VCall :=
  match gxcall e.setEnum with
  | Except.error ex => (Except.error ex, [VCall.gxSetEnum h feature v])
  | Except.ok _ => (Except.ok (), [VCall.gxSetEnum h feature v])

/-- Embedding of `Device::get_float`. -/
def Device.get_float (e : DevEnv) (h : Handle) (feature : Int) :
    Except Exc CDouble × List VCall :=
  match gxcall e.getFloat with
  | Except.error ex => (Except.error ex, [VCall.gxGetFloat h feature])
  | Except.ok _ => (Except.ok (e.floatOut feature), [VCall.gxGetFloat h feature])

/-- Embedding of `Device::set_float`. -/
def Device.set_float (e : DevEnv) (h : Handle) (feature : Int) (v : CDouble) :
    Except Exc Unit × List VCall :=
  match gxcall e.setFloat with
  | Except.error ex => (Except.error ex, [VCall.gxSetFloat h feature v])
  | Except.ok _ => (Except.ok (), [VCall.gxSetFloat h feature v])

/-- Embedding of `Device::get_int`. -/
def Device.get_int (e : DevEnv) (h : Handle) (feature : Int) :
    Except Exc Int × List VCall :=
  match gxcall e.getInt with
  | Except.error ex => (Except.error ex, [VCall.gxGetInt h feature])
  | Except.ok _ => (Except.ok (e.intOut feature), [VCall.gxGetInt h feature])

/-- Embedding of `Device::set_int`. -/
def Device.set_int (e : DevEnv) (h : Handle) (feature v : Int) :
    Except Exc Unit × List VCall :=
  match gxcall e.setInt with
  | Except.error ex => (Except.error ex, [VCall.gxSetInt h feature v])
  | Except.ok _ => (Except.ok (), [VCall.gxSetInt h feature v])

/-- Embedding of `Device::pixel_format`: `get_enum` on
`GX_ENUM_PIXEL_FORMAT`; the `static_cast` to `GX_PIXEL_FORMAT_ENTRY` is
the identity on the underlying integer. -/
def Device.pixel_format (e : DevEnv) (h : Handle) :
    Except Exc Int × List VCall :=
  Device.get_enum e h GX_ENUM_PIXEL_FORMAT

/-- Embedding of `Device::set_pixel_format`. -/
def Device.set_pixel_format (e : DevEnv) (h : Handle) (v : Int) :
    Except Exc Unit × List VCall :=
  Device.set_enum e h GX_ENUM_PIXEL_FORMAT v

/-- Embedding of `Device::set_gain`: selects the gain channel via
`GXSetEnum`, then sets the gain value via `GXSetFloat`. -/
def Device.set_gain (e : DevEnv) (h : Handle) (channel : Int) (v : CDouble) :
    Except Exc Unit × List VCall :=
  match Device.set_enum e h GX_ENUM_GAIN_SELECTOR channel with
  | (Except.error ex, tr) => (Except.error ex, tr)
  | (Except.ok _, tr) =>
    let r := Device.set_float e h GX_FLOAT_GAIN v
    (r.1, tr ++ r.2)

/-- Embedding of `Device::payload_size`: `get_int` on
`GX_INT_PAYLOAD_SIZE`. -/
def Device.payload_size (e : DevEnv) (h : Handle) :
    Except Exc Int × List VCall :=
  Device.get_int e h GX_INT_PAYLOAD_SIZE

/-- A captured frame: the model keeps the size of the buffer malloc'd
from `payload_size()`. -/
structure Frame where
  payload : Int
deriving DecidableEq, Repr

/-- Embedding of `Device::capture`: queries `payload_size()` (one vendor
call), mallocs a buffer of that size, then calls `GXGetImage`; an
exception aborts the sequence. -/
def Device.capture (e : DevEnv) (h : Handle) (timeout : Int) :
    Except Exc Frame × List VCall :=
  match Device.payload_size e h with
  | (Except.error ex, tr) => (Except.error ex, tr)
  | (Except.ok sz, tr) =>
    match gxcall e.getImage with
    | Except.error ex => (Except.error ex, tr ++ [VCall.gxGetImage h timeout])
    | Except.ok _ => (Except.ok ⟨sz⟩, tr ++ [VCall.gxGetImage h timeout])

/-- A vendor environment in which every native call succeeds and reports
no last error, and all output parameters receive 0. -/
def okDev : DevEnv where
  streamOff := ⟨0, ⟨0, 0, 0, ""⟩⟩
  unregisterCb := ⟨0, ⟨0, 0, 0, ""⟩⟩
  closeDevice := ⟨0, ⟨0, 0, 0, ""⟩⟩
  sendCommand := ⟨0, ⟨0, 0, 0, ""⟩⟩
  setEnum := ⟨0, ⟨0, 0, 0, ""⟩⟩
  getEnum := ⟨0, ⟨0, 0, 0, ""⟩⟩
  setFloat := ⟨0, ⟨0, 0, 0, ""⟩⟩
  getFloat := ⟨0, ⟨0, 0, 0, ""⟩⟩
  setInt := ⟨0, ⟨0, 0, 0, ""⟩⟩
  getInt := ⟨0, ⟨0, 0, 0, ""⟩⟩
  getImage := ⟨0, ⟨0, 0, 0, ""⟩⟩
  enumOut := fun _ => 0
  floatOut := fun _ => 0
  intOut := fun _ => 0

/-- Claim C2 counterexample: `Device::close` on a device holding handle 1,
with every vendor call succeeding, invokes three vendor functions, not
exactly one. -/
theorem device_close_not_single_call :
    (Device.close okDev (some 1)).2.2.length ≠ 1 := by
  decide

/-- Claim C2 as amended: each public operation invokes a fixed sequence of
vendor native functions, not always exactly one: `close()` invokes the
three-call close sequence, `set_gain()` invokes `GXSetEnum` on the gain
selector followed by `GXSetFloat` on the gain value, and `capture()`
invokes `GXGetInt` on the payload size followed by `GXGetImage`; beyond
these fixed vendor-call sequences the wrapper adds only lifetime
management and error signalling. -/
theorem device_passthrough_traces (e : DevEnv) (h : Handle) (ch t : Int)
    (d : CDouble) (hso : e.streamOff.last.isOk) (hun : e.unregisterCb.last.isOk)
    (hse : e.setEnum.last.isOk) (hgi : e.getInt.last.isOk) :
    (Device.close e h).2.2 = closeSeq h ∧
    (Device.set_gain e h ch d).2 =
      [VCall.gxSetEnum h GX_ENUM_GAIN_SELECTOR ch,
        VCall.gxSetFloat h GX_FLOAT_GAIN d] ∧
    (Device.capture e h t).2 =
      [VCall.gxGetInt h GX_INT_PAYLOAD_SIZE, VCall.gxGetImage h t] := by
  have h1 : gxcall e.streamOff = Except.ok e.streamOff.ret :=
    call_of_isOk hso _
  have h2 : gxcall e.unregisterCb = Except.ok e.unregisterCb.ret :=
    call_of_isOk hun _
  have h3 : gxcall e.setEnum = Except.ok e.setEnum.ret :=
    call_of_isOk hse _
  have h4 : gxcall e.getInt = Except.ok e.getInt.ret :=
    call_of_isOk hgi _
  refine ⟨?_, ?_, ?_⟩
  · unfold Device.close
    rw [h1, h2]
    cases gxcall e.closeDevice <;> rfl
  · unfold Device.set_gain Device.set_enum Device.set_float
    rw [h3]
    cases gxcall e.setFloat <;> rfl
  · unfold Device.capture Device.payload_size Device.get_int
    rw [h4]
    cases gxcall e.getImage <;> rfl

/-- Witness for the amended C2 at the all-success environment. -/
theorem device_passthrough_traces_witness :
    (Device.close okDev (some 1)).2.2 = closeSeq (some 1) ∧
    (Device.set_gain okDev (some 1) 7 9).2 =
      [VCall.gxSetEnum (some 1) GX_ENUM_GAIN_SELECTOR 7,
        VCall.gxSetFloat (some 1) GX_FLOAT_GAIN 9] ∧
    (Device.capture okDev (some 1) 11).2 =
      [VCall.gxGetInt (some 1) GX_INT_PAYLOAD_SIZE,
        VCall.gxGetImage (some 1) 11] :=
  device_passthrough_traces okDev (some 1) 7 11 9
    (by decide) (by decide) (by decide) (by decide)

/-- Claim C4 counterexample: `Device::reset` on a device holding handle
1, with every vendor call succeeding, invokes `GXSendCommand` with
`GX_COMMAND_DEVICE_RESET` followed by `GXCloseDevice` — not the
three-call vendor close sequence the claim asserts. -/
theorem device_reset_not_close_seq :
    (Device.reset okDev (some 1)).2.2 ≠ closeSeq (some 1) := by
  decide

/-- Claim C4 as amended: a `Device` holding a non-null handle, when
closed via `close()` (normal return), `close_nothrow()` or the
destructor, has the vendor close sequence (`GXStreamOff`,
`GXUnregisterCaptureCallback`, `GXCloseDevice`) invoked and ends with a
null handle (so `operator bool` yields `false`); `reset()` (normal
return) instead invokes `GXSendCommand(GX_COMMAND_DEVICE_RESET)`
followed by `GXCloseDevice` and also ends with a null handle; on a null
handle the destructor and `close_nothrow()` invoke no vendor function
and `close_nothrow()` returns `true`. -/
theorem device_raii_spec (e : DevEnv) (n : Nat) :
    ((Device.close e (some n)).1 = Except.ok () →
      (Device.close e (some n)).2.1 = none ∧
      (Device.close e (some n)).2.2 = closeSeq (some n)) ∧
    ((Device.reset e (some n)).1 = Except.ok () →
      (Device.reset e (some n)).2.1 = none ∧
      (Device.reset e (some n)).2.2 =
        [VCall.gxSendCommand (some n) GX_COMMAND_DEVICE_RESET,
          VCall.gxCloseDevice (some n)]) ∧
    (Device.close_nothrow e (some n)).2.1 = none ∧
    (Device.close_nothrow e (some n)).2.2 = closeSeq (some n) ∧
    (Device.dtor e (some n)).1 = none ∧
    Device.toBool (Device.dtor e (some n)).1 = false ∧
    Device.close_nothrow e none = (true, none, []) ∧
    Device.dtor e none = (none, []) := by
  refine ⟨?_, ?_, rfl, rfl, rfl, rfl, rfl, rfl⟩
  · unfold Device.close
    cases gxcall e.streamOff <;> simp
    cases gxcall e.unregisterCb <;> simp
    cases gxcall e.closeDevice <;> simp [closeSeq]
  · unfold Device.reset
    cases gxcall e.sendCommand <;> simp
    cases gxcall e.closeDevice <;> simp

/-- Witness for the amended C4 at the all-success environment and
handle 1. -/
theorem device_raii_spec_witness :
    (Device.close okDev (some 1)).2.1 = none ∧
    ((Device.reset okDev (some 1)).2.1 = none ∧
      (Device.reset okDev (some 1)).2.2 =
        [VCall.gxSendCommand (some 1) GX_COMMAND_DEVICE_RESET,
          VCall.gxCloseDevice (some 1)]) :=
  ⟨((device_raii_spec okDev 1).1 rfl).1,
    (device_raii_spec okDev 1).2.1 rfl⟩

/-- Claim C5: each getter returns exactly the value the corresponding
vendor get function stored through its output parameter (`pixel_format`
only casts it to the feature's enum type, the identity on the underlying
integer), and each setter passes the caller's value unmodified to the
corresponding vendor set function for its fixed feature identifier. -/
theorem device_accessor_spec (e : DevEnv) (h : Handle) (f v : Int)
    (d : CDouble) (hge : e.getEnum.last.isOk) (hgf : e.getFloat.last.isOk)
    (hgi : e.getInt.last.isOk) :
    (Device.get_enum e h f).1 = Except.ok (e.enumOut f) ∧
    (Device.get_float e h f).1 = Except.ok (e.floatOut f) ∧
    (Device.get_int e h f).1 = Except.ok (e.intOut f) ∧
    (Device.pixel_format e h).1 = Except.ok (e.enumOut GX_ENUM_PIXEL_FORMAT) ∧
    (Device.set_enum e h f v).2 = [VCall.gxSetEnum h f v] ∧
    (Device.set_float e h f d).2 = [VCall.gxSetFloat h f d] ∧
    (Device.set_int e h f v).2 = [VCall.gxSetInt h f v] ∧
    (Device.set_pixel_format e h v).2 =
      [VCall.gxSetEnum h GX_ENUM_PIXEL_FORMAT v] := by
  have h1 : gxcall e.getEnum = Except.ok e.getEnum.ret := call_of_isOk hge _
  have h2 : gxcall e.getFloat = Except.ok e.getFloat.ret := call_of_isOk hgf _
  have h3 : gxcall e.getInt = Except.ok e.getInt.ret := call_of_isOk hgi _
  refine ⟨?_, ?_, ?_, ?_, ?_, ?_, ?_, ?_⟩
  · simp [Device.get_enum, h1]
  · simp [Device.get_float, h2]
  · simp [Device.get_int, h3]
  · simp [Device.pixel_format, Device.get_enum, h1]
  · unfold Device.set_enum
    cases gxcall e.setEnum <;> rfl
  · unfold Device.set_float
    cases gxcall e.setFloat <;> rfl
  · unfold Device.set_int
    cases gxcall e.setInt <;> rfl
  · unfold Device.set_pixel_format Device.set_enum
    cases gxcall e.setEnum <;> rfl

/-- Witness for C5 at the all-success environment. -/
theorem device_accessor_spec_witness :
    (Device.get_enum okDev (some 1) 3012).1 =
      Except.ok (okDev.enumOut 3012) ∧
    (Device.get_float okDev (some 1) 3012).1 =
      Except.ok (okDev.floatOut 3012) ∧
    (Device.get_int okDev (some 1) 3012).1 =
      Except.ok (okDev.intOut 3012) ∧
    (Device.pixel_format okDev (some 1)).1 =
      Except.ok (okDev.enumOut GX_ENUM_PIXEL_FORMAT) ∧
    (Device.set_enum okDev (some 1) 3012 8).2 =
      [VCall.gxSetEnum (some 1) 3012 8] ∧
    (Device.set_float okDev (some 1) 3012 9).2 =
      [VCall.gxSetFloat (some 1) 3012 9] ∧
    (Device.set_int okDev (some 1) 3012 8).2 =
      [VCall.gxSetInt (some 1) 3012 8] ∧
    (Device.set_pixel_format okDev (some 1) 8).2 =
      [VCall.gxSetEnum (some 1) GX_ENUM_PIXEL_FORMAT 8] :=
  device_accessor_spec okDev (some 1) 3012 8 9
    (by decide) (by decide) (by decide)

/-- Recognizer for outcomes that model a thrown `std::runtime_error`. -/
def isRuntimeError {α : Type} : Except Exc α → Bool
  | Except.error (Exc.runtimeError _) => true
  | _ => false

namespace img

/-- Modelled from the vendor header DxImageProc.h (not part of this
repository): the `DX_STATUS` codes used by `img::throw_if_error`;
`DX_OK` is 0 and the remaining named codes are pairwise distinct. -/
def DX_OK : Int := 0

def DX_PARAMETER_INVALID : Int := -101

def DX_PARAMETER_OUT_OF_BOUND : Int := -102

def DX_NOT_ENOUGH_SYSTEM_MEMORY : Int := -103

def DX_NOT_FIND_DEVICE : Int := -104

def DX_STATUS_NOT_SUPPORTED : Int := -105

def DX_CPU_NOT_SUPPORT_ACCELERATE : Int := -106

/-- Embedding of `img::throw_if_error`: the `switch` over the `DX_STATUS`
codes, returning normally only for `DX_OK`, throwing `std::bad_alloc` for
`DX_NOT_ENOUGH_SYSTEM_MEMORY` and `std::runtime_error` otherwise. -/
def throw_if_error (s : Int) : Except Exc Unit :=
  if s = DX_OK then Except.ok ()
  else if s = DX_PARAMETER_INVALID then
    Except.error (Exc.runtimeError "invalid input parameter")
  else if s = DX_PARAMETER_OUT_OF_BOUND then
    Except.error (Exc.runtimeError "the parameter is out of bound")
  else if s = DX_NOT_ENOUGH_SYSTEM_MEMORY then
    Except.error Exc.badAlloc
  else if s = DX_NOT_FIND_DEVICE then
    Except.error (Exc.runtimeError "no device found")
  else if s = DX_STATUS_NOT_SUPPORTED then
    Except.error (Exc.runtimeError "the format is not supported")
  else if s = DX_CPU_NOT_SUPPORT_ACCELERATE then
    Except.error (Exc.runtimeError "the CPU does not support acceleration")
  else Except.error (Exc.runtimeError "unknown error")

/-- Embedding of the template `img::call`: runs the native function
(modelled by the status it returns) and feeds that status to
`throw_if_error`. -/
def call (status : Int) : Except Exc Unit :=
  throw_if_error status

/-- Vendor environment for `DxRaw8toRGB24`: the status it returns and the
bytes it writes into the output buffer. -/
structure ImgEnv where
  convRet : Int
  convBytes : Nat → Nat

/-- Trace entry: one invocation of a native DxImageProc function with the
arguments the wrapper passes to it. -/
inductive DxCall where
  | dxRaw8toRGB24 (input : Nat) (w h : Nat) (ct bl : Int) (flip : Bool)
deriving DecidableEq, Repr

/-- Number of values of the C `std::uint32_t`. -/
def UINT32_CARD : Nat := 2 ^ 32

/-- Embedding of `img::raw8_to_rgb24`: allocates
`new unsigned char[width * height * 3]` — the element count is computed
in `std::uint32_t` arithmetic, hence modulo `2 ^ 32` — then invokes
`DxRaw8toRGB24` through `img::call` and returns the buffer on success;
on failure the exception propagates and the buffer is released (no
buffer escapes). -/
def raw8_to_rgb24 (e : ImgEnv) (input w h : Nat) (ct bl : Int)
    (flip : Bool) : Except Exc (List Nat) × List DxCall :=
  let size := (w * h * 3) % UINT32_CARD
  match call e.convRet with
  | Except.error ex =>
    (Except.error ex, [DxCall.dxRaw8toRGB24 input w h ct bl flip])
  | Except.ok _ =>
    (Except.ok ((List.range size).map e.convBytes),
      [DxCall.dxRaw8toRGB24 input w h ct bl flip])

/-- Length of the buffer returned to the caller, if one is returned. -/
def retLength (r : Except Exc (List Nat) × List DxCall) : Option Nat :=
  match r.1 with
  | Except.ok buf => some buf.length
  | Except.error _ => none

end img

theorem img_call_ok_iff (s : Int) :
    img.call s = Except.ok () ↔ s = img.DX_OK := by
  unfold img.call img.throw_if_error
  split_ifs with h <;> simp_all

/-- Claim C3: `img::throw_if_error` returns normally iff the status is
`DX_OK`; `DX_NOT_ENOUGH_SYSTEM_MEMORY` throws `std::bad_alloc`, and every
other non-`DX_OK` status (named or unrecognised) throws
`std::runtime_error`. -/
theorem img_throw_if_error_spec :
    (∀ s : Int, img.throw_if_error s = Except.ok () ↔ s = img.DX_OK) ∧
    img.throw_if_error img.DX_NOT_ENOUGH_SYSTEM_MEMORY =
      Except.error Exc.badAlloc ∧
    (∀ s : Int, s ≠ img.DX_OK → s ≠ img.DX_NOT_ENOUGH_SYSTEM_MEMORY →
      isRuntimeError (img.throw_if_error s) = true) := by
  refine ⟨?_, rfl, ?_⟩
  · intro s
    unfold img.throw_if_error
    split_ifs with h <;> simp_all
  · intro s h1 h2
    unfold img.throw_if_error
    split_ifs <;> simp_all [isRuntimeError]

/-- Witness for C3 at an unrecognised status code. -/
theorem img_throw_if_error_spec_witness :
    isRuntimeError (img.throw_if_error (-999)) = true :=
  img_throw_if_error_spec.2.2 (-999) (by decide) (by decide)

/-- Claim C6 counterexample: at width = height = 65536 the element count
`width * height * 3` wraps to 0 in `std::uint32_t` arithmetic, so with the
conversion succeeding the returned buffer holds 0 bytes, not
`width * height * 3` bytes. -/
theorem raw8_to_rgb24_overflow_cex :
    img.retLength
      (img.raw8_to_rgb24 ⟨0, fun _ => 0⟩ 1 65536 65536 0 0 false) =
      some 0 ∧
    (65536 * 65536 * 3 : Nat) ≠ 0 := by
  exact ⟨rfl, by decide⟩

/-- Claim C6 as amended: `img::raw8_to_rgb24` invokes `DxRaw8toRGB24`
exactly once with the given input, dimensions, conversion type, Bayer
layout and flip flag; it allocates `(width * height * 3) mod 2 ^ 32`
bytes — which equals `width * height * 3` whenever that product fits in
`std::uint32_t` — and returns that buffer iff the conversion reports
`DX_OK`; on any other status an exception propagates and no buffer is
returned. -/
theorem raw8_to_rgb24_spec (e : img.ImgEnv) (input w h : Nat)
    (ct bl : Int) (flip : Bool) :
    (img.raw8_to_rgb24 e input w h ct bl flip).2 =
      [img.DxCall.dxRaw8toRGB24 input w h ct bl flip] ∧
    (e.convRet = img.DX_OK →
      (img.raw8_to_rgb24 e input w h ct bl flip).1 =
        Except.ok
          ((List.range ((w * h * 3) % img.UINT32_CARD)).map e.convBytes)) ∧
    (w * h * 3 < img.UINT32_CARD → e.convRet = img.DX_OK →
      img.retLength (img.raw8_to_rgb24 e input w h ct bl flip) =
        some (w * h * 3)) ∧
    (e.convRet ≠ img.DX_OK →
      img.retLength (img.raw8_to_rgb24 e input w h ct bl flip) = none) := by
  have hok : e.convRet = img.DX_OK → img.call e.convRet = Except.ok () := by
    intro hr
    exact (img_call_ok_iff e.convRet).mpr hr
  refine ⟨?_, ?_, ?_, ?_⟩
  · unfold img.raw8_to_rgb24
    cases hx : img.call e.convRet <;> simp [hx]
  · intro hr
    simp [img.raw8_to_rgb24, hok hr]
  · intro hlt hr
    simp [img.raw8_to_rgb24, hok hr, img.retLength, Nat.mod_eq_of_lt hlt]
  · intro hne
    cases hx : img.call e.convRet with
    | ok a =>
      cases a
      exact absurd ((img_call_ok_iff e.convRet).mp hx) hne
    | error ex =>
      simp [img.raw8_to_rgb24, hx, img.retLength]

/-- Witness for the amended C6 at a small successful conversion. -/
theorem raw8_to_rgb24_spec_witness :
    img.retLength (img.raw8_to_rgb24 ⟨0, fun _ => 0⟩ 1 2 2 0 0 false) =
      some (2 * 2 * 3) :=
  (raw8_to_rgb24_spec ⟨0, fun _ => 0⟩ 1 2 2 0 0 false).2.2.1
    (by decide) rfl

/-- Number of instances whose `is_refer_` flag is set. -/
def countTrue : List Bool → Nat
  | [] => 0
  | b :: t => (if b then 1 else 0) + countTrue t

/-- State of the `Library` reference-counting scheme: the `is_refer_`
flag of every live `Library` instance and the shared static counter
`refs_`. -/
structure LibSys where
  insts : List Bool
  refs : Int
deriving DecidableEq, Repr

/-- One event in the life of the scheme: constructing a `Library`
(optionally auto-opening), calling `open()` or `close()` on a live
instance, or destroying one. -/
inductive LibOp where
  | construct (autoOpen : Bool)
  | openOp (i : Nat)
  | closeOp (i : Nat)
  | destroy (i : Nat)
deriving DecidableEq, Repr

/-- Embedding of the body of `Library::open` acting on this instance's
`is_refer_` flag and the shared counter: early return when already
referring, `gx::call(GXInitLib)` when the counter is 0 (throwing without
mutating on vendor error), then flag set, counter incremented and the
invariant check (`!is_refer_ || refs_`) which throws `std::logic_error`
when it fails.  Returns the new flag, the new counter, the vendor calls
made and whether the call threw. -/
def libOpenBody (vendorOk : Bool) (isRefer : Bool) (refs : Int) :
    Bool × Int × List VCall × Bool :=
  if isRefer then (isRefer, refs, [], false)
  else if refs = 0 then
    if vendorOk then (true, refs + 1, [VCall.gxInitLib], decide (refs + 1 = 0))
    else (isRefer, refs, [VCall.gxInitLib], true)
  else (true, refs + 1, [], decide (refs + 1 = 0))

/-- Embedding of the body of `Library::close`: early return when not
referring, `gx::call(GXCloseLib)` when the counter is 1 (throwing without
mutating on vendor error), then flag cleared and counter decremented; the
final invariant check never fails once the flag is cleared. -/
def libCloseBody (vendorOk : Bool) (isRefer : Bool) (refs : Int) :
    Bool × Int × List VCall × Bool :=
  if !isRefer then (isRefer, refs, [], false)
  else if refs = 1 then
    if vendorOk then (false, refs - 1, [VCall.gxCloseLib], false)
    else (isRefer, refs, [VCall.gxCloseLib], true)
  else (false, refs - 1, [], false)

/-- Embedding of `Library::~Library`: early return when not referring,
raw `GXCloseLib()` (no throw) when the counter is 1, then the counter is
decremented. -/
def libDtorBody (isRefer : Bool) (refs : Int) : Int × List VCall :=
  if !isRefer then (refs, [])
  else if refs = 1 then (refs - 1, [VCall.gxCloseLib])
  else (refs - 1, [])

/-- Small-step semantics of the scheme: applying one event to the system
state yields the new state, the vendor calls made and whether the event
threw.  A constructor whose `open()` throws leaves no live instance
behind (the object is never constructed, and on the impossible
`logic_error` path its destructor does not run). -/
def LibSys.step (s : LibSys) (op : LibOp) (vendorOk : Bool) :
    LibSys × List VCall × Bool :=
  match op with
  | LibOp.construct autoOpen =>
    if autoOpen then
      let r := libOpenBody vendorOk false s.refs
      if r.2.2.2 then (⟨s.insts, r.2.1⟩, r.2.2.1, true)
      else (⟨s.insts ++ [r.1], r.2.1⟩, r.2.2.1, false)
    else (⟨s.insts ++ [false], s.refs⟩, [], false)
  | LibOp.openOp i =>
    match s.insts[i]? with
    | none => (s, [], false)
    | some b =>
      let r := libOpenBody vendorOk b s.refs
      (⟨s.insts.set i r.1, r.2.1⟩, r.2.2.1, r.2.2.2)
  | LibOp.closeOp i =>
    match s.insts[i]? with
    | none => (s, [], false)
    | some b =>
      let r := libCloseBody vendorOk b s.refs
      (⟨s.insts.set i r.1, r.2.1⟩, r.2.2.1, r.2.2.2)
  | LibOp.destroy i =>
    match s.insts[i]? with
    | none => (s, [], false)
    | some b =>
      let r := libDtorBody b s.refs
      (⟨s.insts.eraseIdx i, r.1⟩, r.2, false)

/-- States reachable from the initial state (no instances, counter 0) by
any sequence of events under any vendor behaviour. -/
inductive Reachable : LibSys → Prop where
  | init : Reachable ⟨[], 0⟩
  | step (s : LibSys) (op : LibOp) (vendorOk : Bool) :
      Reachable s → Reachable (s.step op vendorOk).1

/-- The reference-counting invariant: the shared counter equals the
number of live instances that refer to the library. -/
def LibInv (s : LibSys) : Prop :=
  s.refs = (countTrue s.insts : Int)

theorem set_same : ∀ (l : List Bool) (i : Nat) (b : Bool),
    l[i]? = some b → l.set i b = l
  | [], _, _, h => by simp at h
  | _ :: _, 0, _, h => by
    simp at h
    simp [List.set, h]
  | c :: t, i + 1, b, h => by
    have ih := set_same t i b (by simpa using h)
    simp [List.set, ih]

theorem get_set_self : ∀ (l : List Bool) (i : Nat) (a b : Bool),
    l[i]? = some b → (l.set i a)[i]? = some a
  | [], _, _, _, h => by simp at h
  | _ :: _, 0, _, _, _ => by simp [List.set]
  | c :: t, i + 1, a, b, h => by
    have ih := get_set_self t i a b (by simpa using h)
    simpa [List.set] using ih

theorem countTrue_append (l : List Bool) (b : Bool) :
    countTrue (l ++ [b]) = countTrue l + (if b then 1 else 0) := by
  induction l with
  | nil => simp [countTrue]
  | cons c t ih => cases c <;> simp [countTrue, ih] <;> omega

theorem countTrue_set_true : ∀ (l : List Bool) (i : Nat),
    l[i]? = some false → countTrue (l.set i true) = countTrue l + 1
  | [], _, h => by simp at h
  | c :: t, 0, h => by
    simp at h
    subst h
    simp [List.set, countTrue]
    omega
  | c :: t, i + 1, h => by
    have ih := countTrue_set_true t i (by simpa using h)
    cases c <;> simp [List.set, countTrue, ih] <;> omega

theorem countTrue_set_false : ∀ (l : List Bool) (i : Nat),
    l[i]? = some true → countTrue l = countTrue (l.set i false) + 1
  | [], _, h => by simp at h
  | c :: t, 0, h => by
    simp at h
    subst h
    simp [List.set, countTrue]
    omega
  | c :: t, i + 1, h => by
    have ih := countTrue_set_false t i (by simpa using h)
    cases c <;> simp [List.set, countTrue] <;> omega

theorem countTrue_erase_true : ∀ (l : List Bool) (i : Nat),
    l[i]? = some true → countTrue l = countTrue (l.eraseIdx i) + 1
  | [], _, h => by simp at h
  | c :: t, 0, h => by
    simp at h
    subst h
    simp [List.eraseIdx, countTrue]
    omega
  | c :: t, i + 1, h => by
    have ih := countTrue_erase_true t i (by simpa using h)
    cases c <;> simp [List.eraseIdx, countTrue] <;> omega

theorem countTrue_erase_false : ∀ (l : List Bool) (i : Nat),
    l[i]? = some false → countTrue (l.eraseIdx i) = countTrue l
  | [], _, h => by simp at h
  | c :: t, 0, h => by
    simp at h
    subst h
    simp [List.eraseIdx, countTrue]
  | c :: t, i + 1, h => by
    have ih := countTrue_erase_false t i (by simpa using h)
    cases c <;> simp [List.eraseIdx, countTrue, ih]

theorem countTrue_pos_of_mem : ∀ (l : List Bool), true ∈ l → 1 ≤ countTrue l
  | c :: t, h => by
    cases c
    · have h2 : true ∈ t := by simpa using h
      have := countTrue_pos_of_mem t h2
      simpa [countTrue] using this
    · simp [countTrue]

theorem libInv_step (s : LibSys) (op : LibOp) (vendorOk : Bool)
    (h : LibInv s) : LibInv (s.step op vendorOk).1 := by
  unfold LibInv at *
  cases op with
  | construct autoOpen =>
    cases autoOpen with
    | false => simpa [LibSys.step, countTrue_append] using h
    | true =>
      simp only [LibSys.step, libOpenBody]
      split_ifs <;> simp_all [countTrue_append] <;> omega
  | openOp i =>
    cases hg : s.insts[i]? with
    | none => simpa [LibSys.step, hg] using h
    | some b =>
      cases b with
      | true =>
        simp [LibSys.step, hg, libOpenBody, set_same s.insts i true hg, h]
      | false =>
        simp only [LibSys.step, hg, libOpenBody]
        split_ifs <;>
          simp_all [countTrue_set_true s.insts i hg,
            set_same s.insts i false hg] <;>
          omega
  | closeOp i =>
    cases hg : s.insts[i]? with
    | none => simpa [LibSys.step, hg] using h
    | some b =>
      cases b with
      | true =>
        simp only [LibSys.step, hg, libCloseBody]
        split_ifs <;>
          simp_all [countTrue_set_false s.insts i hg,
            set_same s.insts i true hg] <;>
          omega
      | false =>
        simp [LibSys.step, hg, libCloseBody, set_same s.insts i false hg, h]
  | destroy i =>
    cases hg : s.insts[i]? with
    | none => simpa [LibSys.step, hg] using h
    | some b =>
      cases b with
      | true =>
        simp only [LibSys.step, hg, libDtorBody]
        split_ifs <;>
          simp_all [countTrue_erase_true s.insts i hg] <;>
          omega
      | false =>
        simp [LibSys.step, hg, libDtorBody,
          countTrue_erase_false s.insts i hg, h]

theorem reachable_inv (s : LibSys) (h : Reachable s) : LibInv s := by
  induction h with
  | init => rfl
  | step s' op vendorOk _ ih => exact libInv_step s' op vendorOk ih

/-- Claim C7: in every reachable state, every Library instance whose
`is_refer()` is true implies the shared reference counter is at least 1;
and for any event applied with the vendor calls succeeding, `GXInitLib`
is invoked exactly when the counter transitions from 0 to 1 and
`GXCloseLib` exactly when it transitions from 1 to 0. -/
theorem library_refcount_spec (s : LibSys) (hs : Reachable s) :
    (∀ b ∈ s.insts, b = true → 1 ≤ s.refs) ∧
    (∀ op : LibOp,
      (VCall.gxInitLib ∈ (s.step op true).2.1 ↔
        s.refs = 0 ∧ (s.step op true).1.refs = 1) ∧
      (VCall.gxCloseLib ∈ (s.step op true).2.1 ↔
        s.refs = 1 ∧ (s.step op true).1.refs = 0)) := by
  have hinv := reachable_inv s hs
  unfold LibInv at hinv
  constructor
  · intro b hb hbt
    subst hbt
    have hp := countTrue_pos_of_mem s.insts hb
    omega
  · intro op
    cases op with
    | construct autoOpen =>
      cases autoOpen with
      | false =>
        constructor <;> simp [LibSys.step] <;> omega
      | true =>
        by_cases hr : s.refs = 0 <;>
          constructor <;>
          simp [LibSys.step, libOpenBody, hr, apply_ite] <;>
          omega
    | openOp i =>
      cases hg : s.insts[i]? with
      | none => constructor <;> simp [LibSys.step, hg] <;> omega
      | some b =>
        cases b with
        | true =>
          constructor <;> simp [LibSys.step, hg, libOpenBody] <;> omega
        | false =>
          by_cases hr : s.refs = 0 <;>
            constructor <;>
            simp [LibSys.step, hg, libOpenBody, hr] <;>
            omega
    | closeOp i =>
      cases hg : s.insts[i]? with
      | none => constructor <;> simp [LibSys.step, hg] <;> omega
      | some b =>
        cases b with
        | false =>
          constructor <;> simp [LibSys.step, hg, libCloseBody] <;> omega
        | true =>
          by_cases hr : s.refs = 1 <;>
            constructor <;>
            simp [LibSys.step, hg, libCloseBody, hr] <;>
            omega
    | destroy i =>
      cases hg : s.insts[i]? with
      | none => constructor <;> simp [LibSys.step, hg] <;> omega
      | some b =>
        cases b with
        | false =>
          constructor <;> simp [LibSys.step, hg, libDtorBody] <;> omega
        | true =>
          by_cases hr : s.refs = 1 <;>
            constructor <;>
            simp [LibSys.step, hg, libDtorBody, hr] <;>
            omega

/-- Witness for C7: auto-opening the first `Library` in the initial state
makes the counter go from 0 to 1 and invokes `GXInitLib`. -/
theorem library_refcount_spec_witness :
    VCall.gxInitLib ∈
        ((⟨[], 0⟩ : LibSys).step (LibOp.construct true) true).2.1 ↔
      (⟨[], 0⟩ : LibSys).refs = 0 ∧
        ((⟨[], 0⟩ : LibSys).step (LibOp.construct true) true).1.refs = 1 :=
  ((library_refcount_spec ⟨[], 0⟩ Reachable.init).2 (LibOp.construct true)).1

/-- Claim C8: `Library::open` and `Library::close` are idempotent per
instance: after a non-throwing `open()` (respectively `close()`) on
instance `i`, a second consecutive call is a no-op, changing neither the
instance flags nor the reference counter and invoking no vendor
function. -/
theorem library_idempotent (s : LibSys) (i : Nat) (ok1 ok2 : Bool) :
    ((s.step (LibOp.openOp i) ok1).2.2 = false →
      (s.step (LibOp.openOp i) ok1).1.step (LibOp.openOp i) ok2 =
        ((s.step (LibOp.openOp i) ok1).1, [], false)) ∧
    ((s.step (LibOp.closeOp i) ok1).2.2 = false →
      (s.step (LibOp.closeOp i) ok1).1.step (LibOp.closeOp i) ok2 =
        ((s.step (LibOp.closeOp i) ok1).1, [], false)) := by
  constructor
  · intro hnt
    cases hg : s.insts[i]? with
    | none => simp [LibSys.step, hg]
    | some b =>
      cases b with
      | true =>
        have hset : s.insts.set i true = s.insts := set_same s.insts i true hg
        simp [LibSys.step, hg, libOpenBody, hset]
      | false =>
        have hgs : (s.insts.set i true)[i]? = some true :=
          get_set_self s.insts i true false hg
        have hss : (s.insts.set i true).set i true = s.insts.set i true :=
          set_same (s.insts.set i true) i true hgs
        by_cases hr : s.refs = 0
        · cases ok1 with
          | false => simp [LibSys.step, hg, libOpenBody, hr] at hnt
          | true => simp [LibSys.step, hg, libOpenBody, hr, hgs, hss]
        · simp [LibSys.step, hg, libOpenBody, hr, hgs, hss]
  · intro hnt
    cases hg : s.insts[i]? with
    | none => simp [LibSys.step, hg]
    | some b =>
      cases b with
      | false =>
        have hset : s.insts.set i false = s.insts :=
          set_same s.insts i false hg
        simp [LibSys.step, hg, libCloseBody, hset]
      | true =>
        have hgs : (s.insts.set i false)[i]? = some false :=
          get_set_self s.insts i false true hg
        have hss : (s.insts.set i false).set i false = s.insts.set i false :=
          set_same (s.insts.set i false) i false hgs
        by_cases hr : s.refs = 1
        · cases ok1 with
          | false => simp [LibSys.step, hg, libCloseBody, hr] at hnt
          | true => simp [LibSys.step, hg, libCloseBody, hr, hgs, hss]
        · simp [LibSys.step, hg, libCloseBody, hr, hgs, hss]

/-- Witness for C8: on a freshly constructed (not auto-opened) instance,
open-then-open ends in the same state as a single open, with the second
call a no-op. -/
theorem library_idempotent_witness :
    ((⟨[false], 0⟩ : LibSys).step (LibOp.openOp 0) true).1.step
        (LibOp.openOp 0) true =
      (((⟨[false], 0⟩ : LibSys).step (LibOp.openOp 0) true).1, [], false) :=
  (library_idempotent ⟨[false], 0⟩ 0 true true).1 rfl

/-- Modelled from the vendor header GxIAPI.h (not part of this
repository): the `GX_OPEN_MODE` enumeration selecting how a device is
identified when opened. -/
inductive GxOpenMode where
  | sn
  | ip
  | mac
  | index
  | userid
deriving DecidableEq, Repr

/-- Embedding of `Open_param`: the stored content string (SN, IP, MAC,
decimal index or user ID), the open mode, and the access mode
(`GX_ACCESS_MODE` values are passed through as opaque integers). -/
structure Open_param where
  content : String
  open_mode : GxOpenMode
  access_mode : Int
deriving DecidableEq, Repr

/-- Embedding of `Open_param::by_sn`. -/
def Open_param.by_sn (sn : String) (am : Int) : Except Exc Open_param :=
  if sn.isEmpty then
    Except.error (Exc.invalidArgument "invalid camera serial number")
  else Except.ok ⟨sn, GxOpenMode.sn, am⟩

/-- Embedding of `Open_param::by_ip`. -/
def Open_param.by_ip (ip : String) (am : Int) : Except Exc Open_param :=
  if ip.isEmpty then
    Except.error (Exc.invalidArgument "invalid camera IP address")
  else Except.ok ⟨ip, GxOpenMode.ip, am⟩

/-- Embedding of `Open_param::by_mac`. -/
def Open_param.by_mac (mac : String) (am : Int) : Except Exc Open_param :=
  if mac.isEmpty then
    Except.error (Exc.invalidArgument "invalid camera MAC address")
  else Except.ok ⟨mac, GxOpenMode.mac, am⟩

/-- Embedding of `Open_param::by_index`: `index` is a C `int`; the stored
content is its decimal string `std::to_string(index)`. -/
def Open_param.by_index (index : Int) (am : Int) : Except Exc Open_param :=
  if ¬(index > 0) then
    Except.error (Exc.invalidArgument "invalid camera index")
  else Except.ok ⟨toString index, GxOpenMode.index, am⟩

/-- Embedding of `Open_param::by_userid`. -/
def Open_param.by_userid (userid : String) (am : Int) : Except Exc Open_param :=
  if userid.isEmpty then
    Except.error (Exc.invalidArgument "invalid camera user ID")
  else Except.ok ⟨userid, GxOpenMode.userid, am⟩

/-- Claim C9: `by_sn`, `by_ip`, `by_mac` and `by_userid` throw
`std::invalid_argument` iff the given string is empty, `by_index` throws
`std::invalid_argument` iff the index is not greater than 0, and
otherwise each returns an `Open_param` carrying the given content (the
decimal string for `by_index`), the matching open mode and the given
access mode. -/
theorem open_param_ctors_spec (s : String) (index am : Int) :
    (Open_param.by_sn s am =
        Except.error (Exc.invalidArgument "invalid camera serial number") ↔
      s.isEmpty = true) ∧
    (s.isEmpty = false →
      Open_param.by_sn s am = Except.ok ⟨s, GxOpenMode.sn, am⟩) ∧
    (Open_param.by_ip s am =
        Except.error (Exc.invalidArgument "invalid camera IP address") ↔
      s.isEmpty = true) ∧
    (s.isEmpty = false →
      Open_param.by_ip s am = Except.ok ⟨s, GxOpenMode.ip, am⟩) ∧
    (Open_param.by_mac s am =
        Except.error (Exc.invalidArgument "invalid camera MAC address") ↔
      s.isEmpty = true) ∧
    (s.isEmpty = false →
      Open_param.by_mac s am = Except.ok ⟨s, GxOpenMode.mac, am⟩) ∧
    (Open_param.by_userid s am =
        Except.error (Exc.invalidArgument "invalid camera user ID") ↔
      s.isEmpty = true) ∧
    (s.isEmpty = false →
      Open_param.by_userid s am = Except.ok ⟨s, GxOpenMode.userid, am⟩) ∧
    (Open_param.by_index index am =
        Except.error (Exc.invalidArgument "invalid camera index") ↔
      ¬(index > 0)) ∧
    (index > 0 →
      Open_param.by_index index am =
        Except.ok ⟨toString index, GxOpenMode.index, am⟩) := by
  refine ⟨?_, ?_, ?_, ?_, ?_, ?_, ?_, ?_, ?_, ?_⟩ <;>
    first
    | (unfold Open_param.by_sn
       split_ifs with h <;> simp_all)
    | (unfold Open_param.by_ip
       split_ifs with h <;> simp_all)
    | (unfold Open_param.by_mac
       split_ifs with h <;> simp_all)
    | (unfold Open_param.by_userid
       split_ifs with h <;> simp_all)
    | (unfold Open_param.by_index
       split_ifs with h <;> simp_all)

/-- Witness for C9: a non-empty serial number and a positive index
produce the expected `Open_param` values. -/
theorem open_param_ctors_spec_witness :
    Open_param.by_sn "abc" 1 = Except.ok ⟨"abc", GxOpenMode.sn, 1⟩ ∧
    Open_param.by_index 3 1 =
      Except.ok ⟨toString (3 : Int), GxOpenMode.index, 1⟩ :=
  ⟨(open_param_ctors_spec "abc" 3 1).2.1 rfl,
    (open_param_ctors_spec "abc" 3 1).2.2.2.2.2.2.2.2.2 (by decide)⟩

end DahengGx
